import Mathlib

/-!
Verification of the knowledge-agent core in `src/app/gradio_app.py`.

Python strings are modelled as lists of characters (`Str`).  The external
collaborators (tiktoken tokenizer, OpenAI embedding and chat services, the
chroma vector store's nearest-neighbour search, network/file loaders) are
modelled as oracles bundled in `Env`; the repository's own control flow is
translated directly.  The chroma persistent store is modelled as a map from
collection name to the list of stored records, with `add` appending,
`count` the list length and `delete_collection` + `get_or_create_collection`
resetting the entry to the empty list.
-/

/-- A Python string, modelled as its sequence of characters. -/
abbrev Str := List Char

/-- Python `str.strip()`: remove leading and trailing whitespace characters. -/
def pyStrip (s : Str) : Str :=
  ((s.dropWhile Char.isWhitespace).reverse.dropWhile Char.isWhitespace).reverse

/-- The sliding-window loop of `split_text_by_tokens`
(`src/app/gradio_app.py`, lines 55-64), over an already-encoded token
sequence, starting at token offset `start`.  A token is modelled by the
character sequence it decodes to, so tiktoken's `decode` of a window is the
concatenation (`join`) of the window's tokens.  The extra fuel argument only
bounds the number of loop iterations so that the recursion is structural; the
caller passes more fuel than the Python `range(0, len(tokens), step)` loop
(with its step ≥ 1) can ever consume. -/
def splitGo (tokens : List Str) (chunkSize step : Nat) : Nat → Nat → List Str
  | _start, 0 => []
  | start, fuel + 1 =>
    if start < tokens.length then
      -- `chunk_tokens = tokens[start:start + chunk_size]`
      if ((tokens.drop start).take chunkSize).isEmpty then
        -- `if not chunk_tokens: continue` (note: this skips the break check)
        splitGo tokens chunkSize step (start + step) fuel
      else
        -- `chunk_text = encoding.decode(chunk_tokens).strip()`; the chunk is
        -- appended when non-empty, and the loop breaks when `end >= len(tokens)`
        if (pyStrip ((tokens.drop start).take chunkSize).flatten).isEmpty then
          (if tokens.length ≤ start + chunkSize then []
           else splitGo tokens chunkSize step (start + step) fuel)
        else
          pyStrip ((tokens.drop start).take chunkSize).flatten ::
            (if tokens.length ≤ start + chunkSize then []
             else splitGo tokens chunkSize step (start + step) fuel)
    else []

/-- `split_text_by_tokens` (`src/app/gradio_app.py`, lines 46-66): slide a
window of `chunkSize` tokens with step `max (chunkSize - overlap) 1` over the
token sequence, decode each window, strip it, and keep the non-empty results.
Python's `max(chunk_size - overlap, 1)` on possibly negative ints agrees with
the truncated `Nat` subtraction composed with `max · 1`.  Since the step is
at least 1, the Python loop runs at most `tokens.length` iterations, so the
fuel `tokens.length + 1` is never exhausted. -/
def split_text_by_tokens (tokens : List Str) (chunkSize overlap : Nat) : List Str :=
  splitGo tokens chunkSize (max (chunkSize - overlap) 1) 0 (tokens.length + 1)

/-- MAX_CHUNK_TOKENS (`src/app/gradio_app.py`, line 30). -/
def MAX_CHUNK_TOKENS : Nat := 1000

/-- CHUNK_OVERLAP_TOKENS (`src/app/gradio_app.py`, line 31). -/
def CHUNK_OVERLAP_TOKENS : Nat := 150

lemma mem_dropWhile_of_mem {p : Char → Bool} {c : Char} {s : Str}
    (hc : c ∈ s) (hp : p c = false) : c ∈ s.dropWhile p := by
  have hsplit : s.takeWhile p ++ s.dropWhile p = s := List.takeWhile_append_dropWhile p s
  rw [← hsplit] at hc
  rcases List.mem_append.mp hc with h | h
  · have := List.mem_takeWhile_imp h
    simp [hp] at this
  · exact h

lemma mem_pyStrip_of_mem {c : Char} {s : Str}
    (hc : c ∈ s) (hw : c.isWhitespace = false) : c ∈ pyStrip s := by
  unfold pyStrip
  rw [List.mem_reverse]
  apply mem_dropWhile_of_mem _ hw
  rw [List.mem_reverse]
  exact mem_dropWhile_of_mem hc hw

lemma pyStrip_ne_nil {c : Char} {s : Str}
    (hc : c ∈ s) (hw : c.isWhitespace = false) : pyStrip s ≠ [] :=
  List.ne_nil_of_mem (mem_pyStrip_of_mem hc hw)

/-- After dropping a whitespace run on the left of `pre ++ t ++ suf`, the
fully left-stripped `t` followed by `suf` survives as a suffix, provided `t`
contains a non-whitespace character. -/
lemma dropWhile_append_middle (p : Char → Bool) (pre t suf : Str)
    (ht : ∃ c ∈ t, p c = false) :
    ∃ v, List.dropWhile p (pre ++ t ++ suf) = v ++ (List.dropWhile p t ++ suf) := by
  obtain ⟨c, hct, hcp⟩ := ht
  have hdt : List.dropWhile p t ≠ [] :=
    List.ne_nil_of_mem (mem_dropWhile_of_mem hct hcp)
  rw [List.append_assoc, List.dropWhile_append]
  by_cases hpre : (List.dropWhile p pre).isEmpty = true
  · rw [if_pos hpre, List.dropWhile_append]
    have hdte : ¬ (List.dropWhile p t).isEmpty = true := by
      simpa [List.isEmpty_iff] using hdt
    exact ⟨[], by rw [if_neg hdte]; simp⟩
  · rw [if_neg hpre]
    refine ⟨List.dropWhile p pre ++ t.takeWhile p, ?_⟩
    have hsplit : t ++ suf = t.takeWhile p ++ (t.dropWhile p ++ suf) := by
      rw [← List.append_assoc, List.takeWhile_append_dropWhile]
    rw [hsplit]
    simp [List.append_assoc]

/-- Stripping a string that contains `t` as a contiguous segment keeps the
stripped `t` as a contiguous segment, provided `t` has a non-whitespace
character. -/
lemma pyStrip_append_middle (pre t suf : Str) (ht : ∃ c ∈ t, c.isWhitespace = false) :
    ∃ v w, pyStrip (pre ++ t ++ suf) = v ++ pyStrip t ++ w := by
  obtain ⟨c, hct, hcw⟩ := ht
  obtain ⟨v₁, hv₁⟩ := dropWhile_append_middle Char.isWhitespace pre t suf ⟨c, hct, hcw⟩
  have hcu : c ∈ (List.dropWhile Char.isWhitespace t).reverse := by
    rw [List.mem_reverse]
    exact mem_dropWhile_of_mem hct hcw
  obtain ⟨v₂, hv₂⟩ := dropWhile_append_middle Char.isWhitespace
    suf.reverse (List.dropWhile Char.isWhitespace t).reverse v₁.reverse ⟨c, hcu, hcw⟩
  refine ⟨v₁, v₂.reverse, ?_⟩
  unfold pyStrip
  rw [hv₁]
  have hrev : (v₁ ++ (List.dropWhile Char.isWhitespace t ++ suf)).reverse
      = suf.reverse ++ (List.dropWhile Char.isWhitespace t).reverse ++ v₁.reverse := by
    simp [List.reverse_append, List.append_assoc]
  rw [hrev, hv₂]
  simp [List.reverse_append, List.append_assoc]

/-- A member of a token window occurs contiguously in the decoded window. -/
lemma flatten_of_mem {t : Str} {l : List Str} (h : t ∈ l) :
    ∃ pre suf, l.flatten = pre ++ t ++ suf := by
  obtain ⟨s, r, rfl⟩ := List.append_of_mem h
  exact ⟨s.flatten, r.flatten, by simp⟩

/-- Coverage invariant of the sliding-window loop: from offset `start`, every
later token containing a non-whitespace character survives (stripped) inside
some emitted chunk. -/
lemma splitGo_covers (tokens : List Str) (chunkSize step : Nat)
    (hstep : 0 < step) (hstepN : step ≤ chunkSize) (fuel : Nat) :
    ∀ start i, ∀ hi : i < tokens.length, start ≤ i →
    tokens.length - start < fuel →
    (∃ c ∈ tokens.get ⟨i, hi⟩, c.isWhitespace = false) →
    ∃ chunk ∈ splitGo tokens chunkSize step start fuel,
      ∃ pre suf, chunk = pre ++ pyStrip (tokens.get ⟨i, hi⟩) ++ suf := by
  induction fuel with
  | zero => intro start i hi hsi hfuel hc; omega
  | succ fuel ih => ?_
  intro start i hi hsi hfuel hc
  have hstart : start < tokens.length := Nat.lt_of_le_of_lt hsi hi
  have hN : 0 < chunkSize := Nat.lt_of_lt_of_le hstep hstepN
  rw [splitGo, if_pos hstart]
  have hwinlen : ((tokens.drop start).take chunkSize).length
      = min chunkSize (tokens.length - start) := by
    simp [List.length_take, List.length_drop]
  have hwinne : ¬ ((tokens.drop start).take chunkSize).isEmpty = true := by
    rw [List.isEmpty_iff, ← List.length_eq_zero, hwinlen]
    omega
  rw [if_neg hwinne]
  by_cases hcase : i < start + chunkSize
  · -- the token at index `i` lies inside the current window
    have hlt : i - start < ((tokens.drop start).take chunkSize).length := by
      rw [hwinlen]; omega
    have hmemwin : tokens.get ⟨i, hi⟩ ∈ (tokens.drop start).take chunkSize := by
      have hget : ((tokens.drop start).take chunkSize)[i - start] = tokens.get ⟨i, hi⟩ := by
        rw [List.getElem_take, List.getElem_drop]
        simp only [List.get_eq_getElem]
        congr 1
        omega
      rw [← hget]
      exact List.getElem_mem hlt
    obtain ⟨p₁, s₁, hflat⟩ := flatten_of_mem hmemwin
    obtain ⟨v, w, hstrip⟩ := pyStrip_append_middle p₁ (tokens.get ⟨i, hi⟩) s₁ hc
    obtain ⟨c, hct, hcw⟩ := hc
    have hne : pyStrip ((tokens.drop start).take chunkSize).flatten ≠ [] := by
      rw [hflat, hstrip]
      intro habs
      have : pyStrip (tokens.get ⟨i, hi⟩) = [] := by
        rcases List.append_eq_nil.mp habs with ⟨h1, h2⟩
        exact (List.append_eq_nil.mp h1).2
      exact pyStrip_ne_nil hct hcw this
    have hnem : ¬ (pyStrip ((tokens.drop start).take chunkSize).flatten).isEmpty = true := by
      rw [List.isEmpty_iff]; exact hne
    rw [if_neg hnem]
    refine ⟨pyStrip ((tokens.drop start).take chunkSize).flatten,
      List.mem_cons_self _ _, v, w, ?_⟩
    rw [hflat, hstrip]
  · -- the token lies beyond the current window, so the loop cannot break here
    have hnobreak : ¬ tokens.length ≤ start + chunkSize := by omega
    have hrec := ih (start + step) i hi (by omega) (by omega) hc
    obtain ⟨chunk, hmem, pre, suf, hdec⟩ := hrec
    refine ⟨chunk, ?_, pre, suf, hdec⟩
    by_cases hstripE : (pyStrip ((tokens.drop start).take chunkSize).flatten).isEmpty = true
    · rw [if_pos hstripE, if_neg hnobreak]
      exact hmem
    · rw [if_neg hstripE]
      exact List.mem_cons_of_mem _ (by rw [if_neg hnobreak]; exact hmem)

/-- C1. Chunker coverage: for every tokenized input with at least one
non-whitespace token, and chunk_size > 0, 0 ≤ overlap < chunk_size,
`split_text_by_tokens` emits at least one chunk, and every non-whitespace
token of the input survives, stripped, as a contiguous segment of at least
one emitted chunk. -/
theorem chunker_coverage (tokens : List Str) (chunkSize overlap : Nat)
    (hN : 0 < chunkSize) (hO : overlap < chunkSize)
    (htok : ∃ j, ∃ hj : j < tokens.length, ∃ c ∈ tokens.get ⟨j, hj⟩, c.isWhitespace = false) :
    split_text_by_tokens tokens chunkSize overlap ≠ [] ∧
    ∀ i, ∀ hi : i < tokens.length, (∃ c ∈ tokens.get ⟨i, hi⟩, c.isWhitespace = false) →
      ∃ chunk ∈ split_text_by_tokens tokens chunkSize overlap,
        ∃ pre suf, chunk = pre ++ pyStrip (tokens.get ⟨i, hi⟩) ++ suf := by
  have hstep : 0 < max (chunkSize - overlap) 1 := by omega
  have hstepN : max (chunkSize - overlap) 1 ≤ chunkSize := by omega
  constructor
  · obtain ⟨j, hj, hcj⟩ := htok
    obtain ⟨chunk, hmem, _⟩ :=
      splitGo_covers tokens chunkSize (max (chunkSize - overlap) 1) hstep hstepN
        (tokens.length + 1) 0 j hj (Nat.zero_le j) (by omega) hcj
    exact List.ne_nil_of_mem hmem
  · intro i hi hci
    exact splitGo_covers tokens chunkSize (max (chunkSize - overlap) 1) hstep hstepN
      (tokens.length + 1) 0 i hi (Nat.zero_le i) (by omega) hci

/-- Witness for C1 at a concrete input: two tokens "he" and " llo!" with
chunk_size 1 and overlap 0. -/
theorem chunker_coverage_witness :
    (0 < 1 ∧ 0 < 1 ∧
      (∃ j, ∃ hj : j < (["he".data, " llo!".data] : List Str).length,
        ∃ c ∈ (["he".data, " llo!".data] : List Str).get ⟨j, hj⟩, c.isWhitespace = false)) ∧
    (split_text_by_tokens ["he".data, " llo!".data] 1 0 ≠ [] ∧
      ∀ i, ∀ hi : i < (["he".data, " llo!".data] : List Str).length,
        (∃ c ∈ (["he".data, " llo!".data] : List Str).get ⟨i, hi⟩, c.isWhitespace = false) →
        ∃ chunk ∈ split_text_by_tokens ["he".data, " llo!".data] 1 0,
          ∃ pre suf, chunk = pre ++ pyStrip ((["he".data, " llo!".data] : List Str).get ⟨i, hi⟩) ++ suf) :=
  ⟨⟨by decide, by decide, ⟨0, by decide, 'h', by decide, by decide⟩⟩,
    chunker_coverage ["he".data, " llo!".data] 1 0 (by decide) (by decide)
      ⟨0, by decide, 'h', by decide, by decide⟩⟩

/-- Per-chunk metadata written by ingestion (`src/app/gradio_app.py`,
lines 88-91): `{"source": ..., "source_type": ..., "chunk_index": ...}`.
All metadata written by this app has exactly this shape, so the dynamic
`isinstance(meta, dict)` checks of the source are always satisfied here. -/
structure Metadata where
  source : Str
  source_type : Str
  chunk_index : Nat
deriving DecidableEq

/-- One stored record of a chroma collection: id, document text, embedding
and metadata, as passed to `collection.add` (line 92). -/
structure Record (E : Type) where
  id : Str
  document : Str
  embedding : E
  metadata : Metadata
deriving DecidableEq

/-- The chroma persistent store, as a map from collection name to the list
of records of that collection (in insertion order).  A name that was never
added to maps to the empty list, matching `get_or_create_collection` of a
fresh name yielding an empty collection. -/
def Store (E : Type) : Type := Str → List (Record E)

/-- Replace one collection's contents, leaving every other collection
untouched. -/
def updateStore {E : Type} (store : Store E) (name : Str) (records : List (Record E)) :
    Store E :=
  fun n => if n = name then records else store n

/-- `get_chroma_collection` (lines 38-43) resolves a session to the
collection named `f"knowledge_agent_{session_id}"`. -/
def collectionName (session : Str) : Str :=
  "knowledge_agent_".data ++ session

/-- The session's `collection.count()`. -/
def collectionCount {E : Type} (session : Str) (store : Store E) : Nat :=
  (store (collectionName session)).length

/-- External collaborators of the core, as oracles: the tiktoken
`cl100k_base` encoder (a token modelled by the character sequence it decodes
to), the OpenAI embedding and chat services, chroma's nearest-neighbour
query (returning parallel documents/metadatas, modelled as a list of pairs),
and the loaders/filesystem helpers used by the Gradio entry points.
An `Except.error` models a raised exception, carrying `str(exc)`. -/
structure Env (E : Type) where
  encode : Str → List Str
  embed : List Str → Except Str (List E)
  queryFn : List (Record E) → E → Nat → List (Str × Metadata)
  chat : Str → Str → Except Str Str
  loadWeb : Str → Except Str Str
  loadYoutube : Str → Except Str Str
  readFile : Str → Except Str Str
  loadPdf : Str → Except Str Str
  loadDocx : Str → Except Str Str
  decodeUtf8 : Str → Str
  pathSuffix : Str → Str
  fileName : Str → Str

/-- `embed_texts` (lines 69-74): an empty input list returns `[]` without
calling the service; otherwise one batched service call. -/
def embed_texts {E : Type} (env : Env E) (texts : List Str) : Except Str (List E) :=
  if texts.isEmpty then .ok [] else env.embed texts

/-- Message of the `ValueError` raised on empty/whitespace-only input
(line 79). -/
def emptyInputMsg : Str := "Loaded content is empty and cannot be ingested.".data

/-- Message of the `ValueError` raised when chunking produces nothing
(line 82). -/
def noChunksMsg : Str := "No chunks were created from this source.".data

/-- Message modelling the exception chroma's `collection.add` raises when the
parallel argument lists do not all have the same length. -/
def addLengthMismatchMsg : Str := "Unequal lengths for fields in add.".data

/-- Record id `f"doc_{existing_count + idx}"` (line 87). -/
def docId (k : Nat) : Str := "doc_".data ++ (Nat.repr k).data

/-- The records handed to `collection.add` in one ingestion (lines 86-92):
parallel lists of ids, documents, embeddings and metadatas, zipped. -/
def zipRecords {E : Type} (ids docs : List Str) (embs : List E) (metas : List Metadata) :
    List (Record E) :=
  (ids.zip (docs.zip (embs.zip metas))).map fun x =>
    { id := x.1, document := x.2.1, embedding := x.2.2.1, metadata := x.2.2.2 }

/-- `ingest_source_text` (lines 77-93).  Returns the raised exception or the
chunk count, paired with the store after the call (unchanged on the error
paths, which all occur before `collection.add`). -/
def ingest_source_text {E : Type} (env : Env E)
    (session source_name source_type text : Str) (store : Store E) :
    Except Str Nat × Store E :=
  if pyStrip text = [] then (.error emptyInputMsg, store)
  else
    -- `chunks = split_text_by_tokens(text)` with the module defaults
    have chunks := split_text_by_tokens (env.encode text) MAX_CHUNK_TOKENS CHUNK_OVERLAP_TOKENS
    if chunks.isEmpty then (.error noChunksMsg, store)
    else
      match embed_texts env chunks with
      | .error e => (.error e, store)
      | .ok embeddings =>
        -- chroma validates that ids/documents/embeddings/metadatas have
        -- equal length; ids and metadatas have length `len(chunks)` by
        -- construction, so only the embedding batch length can mismatch
        if embeddings.length = chunks.length then
          have coll := store (collectionName session)
          (.ok chunks.length,
            updateStore store (collectionName session)
              (coll ++ zipRecords
                ((List.range chunks.length).map fun idx => docId (coll.length + idx))
                chunks embeddings
                ((List.range chunks.length).map fun idx =>
                  { source := source_name, source_type := source_type, chunk_index := idx })))
        else (.error addLengthMismatchMsg, store)

/-- The `f"{meta.get('source')} ({meta.get('source_type')})"` label of
`list_sources` (line 102). -/
def labelOf (m : Metadata) : Str :=
  m.source ++ " (".data ++ m.source_type ++ ")".data

/-- Python string comparison, lexicographic on code points, as a Boolean
`≤` used to model `sorted`. -/
def strLe : Str → Str → Bool
  | [], _ => true
  | _ :: _, [] => false
  | a :: as, b :: bs =>
    if a.toNat < b.toNat then true
    else if b.toNat < a.toNat then false
    else strLe as bs

/-- `list_sources` (lines 96-106): empty collection gives `[]`, otherwise the
set of labels of all stored metadatas, sorted ascending (Python
`sorted(set(...))`, modelled as `dedup` then `mergeSort`). -/
def list_sources {E : Type} (session : Str) (store : Store E) : List Str :=
  have coll := store (collectionName session)
  if coll.length = 0 then []
  else ((coll.map fun r => labelOf r.metadata).dedup).mergeSort strLe

/-- `clear_database` (lines 109-118): delete the session's collection
(ignoring a failed delete) and re-create it empty.  Net effect on the store:
the session's collection becomes empty, everything else is untouched. -/
def clear_database {E : Type} (session : Str) (store : Store E) : Store E :=
  updateStore store (collectionName session) []

/-- Message of the `ValueError` raised when the knowledge base is empty
(line 124). -/
def emptyKBMsg : Str := "No content has been ingested yet.".data

/-- Message modelling the `IndexError` from `embed_texts(...)[0]` when the
embedding service returns an empty batch (line 126). -/
def indexErrorMsg : Str := "list index out of range".data

/-- The fallback answer when retrieval returns nothing (line 138). -/
def fallbackAnswer : Str :=
  "I couldn\x27t find relevant information in the current knowledge base.".data

/-- The empty-citations marker (line 139). -/
def noCitationsMsg : Str := "No citations found.".data

/-- The fixed replacement when the chat service returns empty content
(line 179). -/
def noAnswerMsg : Str := "No answer returned.".data

/-- The system message of the chat request (lines 170-173). -/
def systemMsg : Str := "Answer using only provided context and cite sources.".data

/-- The citation label `f"[{idx}] {source} ({source_type})"` (line 154). -/
def citationLabel (idx : Nat) (m : Metadata) : Str :=
  "[".data ++ (Nat.repr idx).data ++ "] ".data ++ m.source
    ++ " (".data ++ m.source_type ++ ")".data

/-- The `citations` list built by the retrieval loop (lines 142-155): one
label per retrieved record, in rank order, 1-indexed. -/
def citationLabels (hits : List (Str × Metadata)) : List Str :=
  hits.enum.map fun p => citationLabel (p.1 + 1) p.2.2

/-- The `context_parts` list (line 156): each citation label concatenated
with its chunk text. -/
def contextParts (hits : List (Str × Metadata)) : List Str :=
  hits.enum.map fun p => citationLabel (p.1 + 1) p.2.2 ++ "\n".data ++ p.2.1

/-- The user prompt (lines 159-165). -/
def promptText (question context_text : Str) : Str :=
  ("You are a helpful assistant answering from provided context only. "
    ++ "If answer is missing, say you don\x27t know. "
    ++ "Include bracket citations like [1], [2].\n\n").data
  ++ "Question:\n".data ++ question ++ "\n\n".data
  ++ "Context:\n".data ++ context_text

/-- The rendered citation block `"\n".join(f"- {item}" ...)` (line 180). -/
def citationBlock (citations : List Str) : Str :=
  List.intercalate "\n".data (citations.map fun c => "- ".data ++ c)

/-- `answer_question` (lines 121-181).  `Except.error` models a raised
exception.  Chroma's query returns parallel `documents`/`metadatas` lists,
modelled as the projections of the oracle's list of pairs, which the loop
zips back together. -/
def answer_question {E : Type} (env : Env E) (session question : Str)
    (store : Store E) (top_k : Nat := 4) : Except Str (Str × Str) :=
  have coll := store (collectionName session)
  if coll.length = 0 then .error emptyKBMsg
  else
    match embed_texts env [question] with
    | .error e => .error e
    | .ok [] => .error indexErrorMsg
    | .ok (query_embedding :: _) =>
      have hits := env.queryFn coll query_embedding top_k
      have documents := hits.map Prod.fst
      have metadatas := hits.map Prod.snd
      if documents.isEmpty then .ok (fallbackAnswer, noCitationsMsg)
      else
        have pairs := documents.zip metadatas
        have context_text := List.intercalate "\n\n".data (contextParts pairs)
        match env.chat systemMsg (promptText question context_text) with
        | .error e => .error e
        | .ok content =>
          .ok ((if content.isEmpty then noAnswerMsg else content),
               citationBlock (citationLabels pairs))

/-- `sources_markdown` (lines 227-231). -/
def sources_markdown {E : Type} (session : Str) (store : Store E) : Str :=
  have sources := list_sources session store
  if sources.isEmpty then "No sources ingested yet.".data
  else List.intercalate "\n".data (sources.map fun s => "- ".data ++ s)

/-- Status text of a successful website ingestion (line 190). -/
def okWebMsg (count : Nat) : Str :=
  "✅ Ingested ".data ++ (Nat.repr count).data ++ " chunks from website.".data

/-- Status text of a failed website ingestion (line 192). -/
def failWebMsg (e : Str) : Str := "❌ Website ingest failed: ".data ++ e

/-- The try/except result conversion of `ingest_website` (lines 187-192):
a successful ingestion reports the ✅ chunk-count message, a raised
exception is caught and reported as the ❌ failure message. -/
def webIngestOutcome {E : Type} (session : Str) (r : Except Str Nat × Store E) :
    (Str × Str) × Store E :=
  match r with
  | (.error e, store!) => ((failWebMsg e, sources_markdown session store!), store!)
  | (.ok n, store!) => ((okWebMsg n, sources_markdown session store!), store!)

/-- `ingest_website` (lines 184-192): returns the (status, sources-markdown)
pair shown in the UI, together with the store after the call. -/
def ingest_website {E : Type} (env : Env E) (session url : Str) (store : Store E) :
    (Str × Str) × Store E :=
  if pyStrip url = [] then
    (("Please provide a website URL.".data, sources_markdown session store), store)
  else
    match env.loadWeb url with
    | .error e => ((failWebMsg e, sources_markdown session store), store)
    | .ok text => webIngestOutcome session (ingest_source_text env session url "web".data text store)

/-- Status text of a successful YouTube ingestion (line 201). -/
def okYoutubeMsg (count : Nat) : Str :=
  "✅ Ingested ".data ++ (Nat.repr count).data ++ " chunks from YouTube transcript.".data

/-- Status text of a failed YouTube ingestion (line 203). -/
def failYoutubeMsg (e : Str) : Str := "❌ YouTube ingest failed: ".data ++ e

/-- The try/except result conversion of `ingest_youtube` (lines 198-203). -/
def youtubeIngestOutcome {E : Type} (session : Str) (r : Except Str Nat × Store E) :
    (Str × Str) × Store E :=
  match r with
  | (.error e, store!) => ((failYoutubeMsg e, sources_markdown session store!), store!)
  | (.ok n, store!) => ((okYoutubeMsg n, sources_markdown session store!), store!)

/-- `ingest_youtube` (lines 195-203). -/
def ingest_youtube {E : Type} (env : Env E) (session url : Str) (store : Store E) :
    (Str × Str) × Store E :=
  if pyStrip url = [] then
    (("Please provide a YouTube URL.".data, sources_markdown session store), store)
  else
    match env.loadYoutube url with
    | .error e => ((failYoutubeMsg e, sources_markdown session store), store)
    | .ok text =>
      youtubeIngestOutcome session (ingest_source_text env session url "youtube".data text store)

/-- Status text of a successful file ingestion (line 222). -/
def okFileMsg (count : Nat) (name : Str) : Str :=
  "✅ Ingested ".data ++ (Nat.repr count).data ++ " chunks from ".data ++ name ++ ".".data

/-- Status text of a failed file ingestion (line 224). -/
def failFileMsg (e : Str) : Str := "❌ File ingest failed: ".data ++ e

/-- Message of the `ValueError` raised for unknown extensions (line 220). -/
def unsupportedTypeMsg : Str := "Unsupported file type. Use PDF, DOCX, or TXT.".data

/-- The text-extraction dispatch of `ingest_uploaded_file` (lines 212-220):
pdf and docx go to their loaders, txt is decoded, anything else raises the
unsupported-type `ValueError`. -/
def extractFileText {E : Type} (env : Env E) (suffixLower file_bytes : Str) :
    Except Str Str :=
  if suffixLower = ".pdf".data then env.loadPdf file_bytes
  else if suffixLower = ".docx".data then env.loadDocx file_bytes
  else if suffixLower = ".txt".data then .ok (env.decodeUtf8 file_bytes)
  else .error unsupportedTypeMsg

/-- The try/except result conversion of `ingest_uploaded_file`
(lines 221-224). -/
def fileIngestOutcome {E : Type} (session name : Str) (r : Except Str Nat × Store E) :
    (Str × Str) × Store E :=
  match r with
  | (.error e, store!) => ((failFileMsg e, sources_markdown session store!), store!)
  | (.ok n, store!) => ((okFileMsg n name, sources_markdown session store!), store!)

/-- Continuation of `ingest_uploaded_file` after text extraction: a failed
extraction (including the unsupported-type `ValueError`) is caught and
reported, an extracted text is ingested. -/
def fileTextOutcome {E : Type} (env : Env E) (session name sfx : Str) (store : Store E) :
    Except Str Str → (Str × Str) × Store E
  | .error e => ((failFileMsg e, sources_markdown session store), store)
  | .ok text =>
    fileIngestOutcome session name (ingest_source_text env session name sfx text store)

/-- `ingest_uploaded_file` (lines 206-224).  `Path` bookkeeping
(`read_bytes`, `suffix`, `name`) and the binary loaders are oracles; the
dispatch on the lower-cased suffix and the `suffix.replace(".", "")` source
type are translated directly. -/
def ingest_uploaded_file {E : Type} (env : Env E) (session : Str)
    (file_obj : Option Str) (store : Store E) : (Str × Str) × Store E :=
  match file_obj with
  | none => (("Please upload a file first.".data, sources_markdown session store), store)
  | some path =>
    match env.readFile path with
    | .error e => ((failFileMsg e, sources_markdown session store), store)
    | .ok file_bytes =>
      have suffix! := (env.pathSuffix path).map Char.toLower
      fileTextOutcome env session (env.fileName path) (suffix!.filter fun c => c != '.')
        store (extractFileText env suffix! file_bytes)

/-- `clear_db_action` (lines 234-239).  In the model `clear_database` is
total, so only the success branch is reachable. -/
def clear_db_action {E : Type} (session : Str) (store : Store E) : Str × Store E :=
  ("✅ Database cleared.".data, clear_database session store)

/-- `ask_question` (lines 242-248). -/
def ask_question {E : Type} (env : Env E) (session question : Str) (store : Store E) :
    Str × Str :=
  if pyStrip question = [] then ("Please enter a question.".data, [])
  else
    match answer_question env session question store 4 with
    | .ok (a, c) => (a, c)
    | .error e => ("❌ Question answering failed: ".data ++ e, [])

lemma collectionName_inj {A B : Str} (h : collectionName A = collectionName B) : A = B :=
  List.append_cancel_left h

/-- An ingestion call never touches any collection other than the session's
own. -/
lemma ingest_source_text_other {E : Type} (env : Env E)
    (session source_name source_type text : Str) (store : Store E)
    (c : Str) (hc : c ≠ collectionName session) :
    (ingest_source_text env session source_name source_type text store).2 c = store c := by
  simp only [ingest_source_text]
  split
  · rfl
  · split
    · rfl
    · split
      · rfl
      · split
        · simp [updateStore, hc]
        · rfl

/-- Inversion of a successful ingestion: the embedding batch matched the
chunk list, the returned count is the chunk count, and the new store is the
old one with the zipped records appended to the session's collection. -/
lemma ingest_ok_inv {E : Type} {env : Env E} {session source_name source_type text : Str}
    {store : Store E} {n : Nat} {store! : Store E}
    (h : ingest_source_text env session source_name source_type text store = (.ok n, store!)) :
    ∃ embeddings : List E,
      embeddings.length =
        (split_text_by_tokens (env.encode text) MAX_CHUNK_TOKENS CHUNK_OVERLAP_TOKENS).length ∧
      n = (split_text_by_tokens (env.encode text) MAX_CHUNK_TOKENS CHUNK_OVERLAP_TOKENS).length ∧
      store! = updateStore store (collectionName session)
        (store (collectionName session) ++
          zipRecords
            ((List.range n).map fun idx =>
              docId ((store (collectionName session)).length + idx))
            (split_text_by_tokens (env.encode text) MAX_CHUNK_TOKENS CHUNK_OVERLAP_TOKENS)
            embeddings
            ((List.range n).map fun idx =>
              { source := source_name, source_type := source_type, chunk_index := idx })) := by
  simp only [ingest_source_text] at h
  split at h
  · simp at h
  · split at h
    · simp at h
    · split at h
      · simp at h
      · split at h
        · rename_i embeddings heq hlen
          obtain ⟨h1, h2⟩ := Prod.mk.injEq .. ▸ h
          obtain rfl : n = _ := (Except.ok.injEq .. ▸ h1).symm
          exact ⟨embeddings, hlen, rfl, h2.symm⟩
        · simp at h

lemma zipRecords_length {E : Type} {ids docs : List Str} {embs : List E}
    {metas : List Metadata} (h1 : docs.length = ids.length)
    (h2 : embs.length = ids.length) (h3 : metas.length = ids.length) :
    (zipRecords ids docs embs metas).length = ids.length := by
  simp [zipRecords, List.length_zip]
  omega

lemma zipRecords_get {E : Type} {ids docs : List Str} {embs : List E}
    {metas : List Metadata} (h1 : docs.length = ids.length)
    (h2 : embs.length = ids.length) (h3 : metas.length = ids.length)
    {i : Nat} (hi : i < (zipRecords ids docs embs metas).length) :
    ∃ hid : i < ids.length, ∃ hd : i < docs.length, ∃ he : i < embs.length,
      ∃ hm : i < metas.length,
      (zipRecords ids docs embs metas).get ⟨i, hi⟩ =
        { id := ids.get ⟨i, hid⟩, document := docs.get ⟨i, hd⟩,
          embedding := embs.get ⟨i, he⟩, metadata := metas.get ⟨i, hm⟩ } := by
  have hlen := zipRecords_length h1 h2 h3
  have hid : i < ids.length := hlen ▸ hi
  refine ⟨hid, h1 ▸ hid, h2 ▸ hid, h3 ▸ hid, ?_⟩
  simp [zipRecords, List.get_eq_getElem, List.getElem_map, List.getElem_zip]

/-- C4. Ingestion postcondition: a successful (serialized) ingestion that
returns count `n` appends exactly `n` records to the session's collection —
ids `doc_<count>`, …, `doc_<count+n-1>`, metadata
`{source, source_type, chunk_index = position}` — growing the collection from
`count` to `count + n` while preserving every existing record and every other
collection. -/
theorem ingest_postcondition {E : Type} (env : Env E)
    (session source_name source_type text : Str) (store : Store E)
    (n : Nat) (store! : Store E)
    (h : ingest_source_text env session source_name source_type text store = (.ok n, store!)) :
    ∃ records : List (Record E),
      store! (collectionName session) = store (collectionName session) ++ records ∧
      records.length = n ∧
      collectionCount session store! = collectionCount session store + n ∧
      (∀ i, ∀ hi : i < records.length,
        (records.get ⟨i, hi⟩).id = docId (collectionCount session store + i) ∧
        (records.get ⟨i, hi⟩).metadata =
          { source := source_name, source_type := source_type, chunk_index := i }) ∧
      (∀ c : Str, c ≠ collectionName session → store! c = store c) := by
  obtain ⟨embeddings, hlen, hn, hst⟩ := ingest_ok_inv h
  have hids : ((List.range n).map fun idx =>
      docId ((store (collectionName session)).length + idx)).length = n := by simp
  have h1 : (split_text_by_tokens (env.encode text) MAX_CHUNK_TOKENS
      CHUNK_OVERLAP_TOKENS).length = ((List.range n).map fun idx =>
      docId ((store (collectionName session)).length + idx)).length := by
    rw [hids, hn]
  have h2 : embeddings.length = ((List.range n).map fun idx =>
      docId ((store (collectionName session)).length + idx)).length := by
    rw [hids, hn, hlen]
  have h3 : (((List.range n).map fun idx =>
      ({ source := source_name, source_type := source_type, chunk_index := idx }
        : Metadata))).length = ((List.range n).map fun idx =>
      docId ((store (collectionName session)).length + idx)).length := by
    simp
  refine ⟨zipRecords
      ((List.range n).map fun idx =>
        docId ((store (collectionName session)).length + idx))
      (split_text_by_tokens (env.encode text) MAX_CHUNK_TOKENS CHUNK_OVERLAP_TOKENS)
      embeddings
      ((List.range n).map fun idx =>
        { source := source_name, source_type := source_type, chunk_index := idx }),
    ?_, ?_, ?_, ?_, ?_⟩
  · rw [hst]; simp [updateStore]
  · rw [zipRecords_length h1 h2 h3, hids]
  · rw [hst]
    simp [collectionCount, updateStore, List.length_append,
      zipRecords_length h1 h2 h3, hids]
  · intro i hi
    obtain ⟨hid, hd, he, hm, hget⟩ := zipRecords_get h1 h2 h3 hi
    rw [hget]
    constructor
    · simp [collectionCount, List.get_eq_getElem, List.getElem_map, List.getElem_range]
    · simp [List.get_eq_getElem, List.getElem_map, List.getElem_range]
  · intro c hc
    have := ingest_source_text_other env session source_name source_type text store c hc
    rw [h] at this
    exact this

/-- Witness environment: one token per text, embeddings by text length, a
take-based nearest-neighbour oracle, and trivial loaders. -/
def sampleEnv : Env Nat :=
  { encode := fun t => [t]
    embed := fun ts => .ok (ts.map List.length)
    queryFn := fun coll _ k => (coll.take k).map fun r => (r.document, r.metadata)
    chat := fun _ _ => .ok "The sky is blue [1].".data
    loadWeb := fun _ => .ok "page text".data
    loadYoutube := fun _ => .ok "transcript words".data
    readFile := fun _ => .ok "file bytes".data
    loadPdf := fun b => .ok b
    loadDocx := fun b => .ok b
    decodeUtf8 := fun b => b
    pathSuffix := fun _ => ".txt".data
    fileName := fun p => p }

/-- The all-empty store: every collection name maps to no records. -/
def emptyStore : Store Nat := fun _ => []

/-- Witness for C4: ingesting "hello" into session "A" over the empty store
succeeds with one chunk and satisfies the postcondition. -/
theorem ingest_postcondition_witness :
    ((ingest_source_text sampleEnv "A".data "doc1".data "txt".data "hello".data
        emptyStore).1 = .ok 1) ∧
    (∃ records : List (Record Nat),
      (ingest_source_text sampleEnv "A".data "doc1".data "txt".data "hello".data
          emptyStore).2 (collectionName "A".data)
        = emptyStore (collectionName "A".data) ++ records ∧
      records.length = 1 ∧
      collectionCount "A".data
          (ingest_source_text sampleEnv "A".data "doc1".data "txt".data "hello".data
            emptyStore).2
        = collectionCount "A".data emptyStore + 1 ∧
      (∀ i, ∀ hi : i < records.length,
        (records.get ⟨i, hi⟩).id = docId (collectionCount "A".data emptyStore + i) ∧
        (records.get ⟨i, hi⟩).metadata =
          { source := "doc1".data, source_type := "txt".data, chunk_index := i }) ∧
      (∀ c : Str, c ≠ collectionName "A".data →
        (ingest_source_text sampleEnv "A".data "doc1".data "txt".data "hello".data
          emptyStore).2 c = emptyStore c)) := by
  have h1 : (ingest_source_text sampleEnv "A".data "doc1".data "txt".data "hello".data
      emptyStore).1 = .ok 1 := by rfl
  have hpair : ingest_source_text sampleEnv "A".data "doc1".data "txt".data "hello".data
      emptyStore = (.ok 1, (ingest_source_text sampleEnv "A".data "doc1".data "txt".data
        "hello".data emptyStore).2) := by
    rw [← h1]
  exact ⟨h1, ingest_postcondition sampleEnv "A".data "doc1".data "txt".data "hello".data
    emptyStore 1 _ hpair⟩

/-- C5. Ingesting empty or whitespace-only text fails with the
`EmptyInputError` message of line 79 for every environment — in particular
before any embedding call — and leaves the store, hence the session's
`count()`, unchanged. -/
theorem ingest_empty_input {E : Type} (env : Env E)
    (session source_name source_type text : Str) (store : Store E)
    (h : pyStrip text = []) :
    ingest_source_text env session source_name source_type text store
      = (.error emptyInputMsg, store) ∧
    collectionCount session
        (ingest_source_text env session source_name source_type text store).2
      = collectionCount session store := by
  constructor
  · simp [ingest_source_text, h]
  · simp [ingest_source_text, h]

/-- Witness for C5 on the whitespace-only text "  \t ". -/
theorem ingest_empty_input_witness :
    pyStrip "  \t ".data = [] ∧
    (ingest_source_text sampleEnv "A".data "s".data "txt".data "  \t ".data emptyStore
        = (.error emptyInputMsg, emptyStore) ∧
      collectionCount "A".data
          (ingest_source_text sampleEnv "A".data "s".data "txt".data "  \t ".data
            emptyStore).2
        = collectionCount "A".data emptyStore) :=
  ⟨by decide,
    ingest_empty_input sampleEnv "A".data "s".data "txt".data "  \t ".data
      emptyStore (by decide)⟩

/-- C6. Asking a question on a session whose index has `count() == 0` fails
with the `EmptyKnowledgeBaseError` message of line 124, for every
environment — in particular before any embedding or chat call. -/
theorem answer_empty_kb {E : Type} (env : Env E) (session question : Str)
    (store : Store E) (top_k : Nat)
    (h : collectionCount session store = 0) :
    answer_question env session question store top_k = .error emptyKBMsg := by
  simp only [collectionCount] at h
  simp only [answer_question]
  rw [if_pos h]

/-- Witness for C6 on a fresh session over the empty store. -/
theorem answer_empty_kb_witness :
    collectionCount "B".data emptyStore = 0 ∧
    answer_question sampleEnv "B".data "What color is the sky?".data emptyStore 4
      = .error emptyKBMsg :=
  ⟨by decide,
    answer_empty_kb sampleEnv "B".data "What color is the sky?".data emptyStore 4
      (by decide)⟩

/-- C2. Cross-session isolation: an ingestion into session `A` leaves a
distinct session `B` that never ingested anything (its collection is empty)
with `list_sources(B) == []` and `count(B) == 0`, whatever the ingestion's
outcome. -/
theorem session_isolation {E : Type} (env : Env E)
    (A B source_name source_type text : Str) (store : Store E)
    (hAB : A ≠ B) (hB : store (collectionName B) = []) :
    list_sources B (ingest_source_text env A source_name source_type text store).2 = [] ∧
    collectionCount B (ingest_source_text env A source_name source_type text store).2 = 0 := by
  have hcoll : collectionName B ≠ collectionName A :=
    fun hc => hAB (collectionName_inj hc).symm
  have hother := ingest_source_text_other env A source_name source_type text store _ hcoll
  rw [hB] at hother
  constructor
  · simp [list_sources, hother]
  · simp [collectionCount, hother]

/-- Witness for C2: ingest into "A", then session "B" still sees nothing. -/
theorem session_isolation_witness :
    ("A".data ≠ "B".data ∧ emptyStore (collectionName "B".data) = []) ∧
    (list_sources "B".data
        (ingest_source_text sampleEnv "A".data "doc1".data "txt".data "hello".data
          emptyStore).2 = [] ∧
      collectionCount "B".data
        (ingest_source_text sampleEnv "A".data "doc1".data "txt".data "hello".data
          emptyStore).2 = 0) :=
  ⟨⟨by decide, rfl⟩,
    session_isolation sampleEnv "A".data "B".data "doc1".data "txt".data "hello".data
      emptyStore (by decide) rfl⟩

/-- C8. Clear is idempotent and empties exactly this session: clearing twice
equals clearing once, afterwards `count() == 0` and `list_sources == []`,
and every other session's collection is untouched. -/
theorem clear_idempotent {E : Type} (session : Str) (store : Store E) :
    clear_database session (clear_database session store) = clear_database session store ∧
    collectionCount session (clear_database session store) = 0 ∧
    list_sources session (clear_database session store) = [] ∧
    (∀ other : Str, other ≠ session →
      clear_database session store (collectionName other) = store (collectionName other)) := by
  refine ⟨?_, ?_, ?_, ?_⟩
  · funext c
    by_cases hc : c = collectionName session <;> simp [clear_database, updateStore, hc]
  · simp [collectionCount, clear_database, updateStore]
  · simp [list_sources, clear_database, updateStore]
  · intro other hother
    have hne : collectionName other ≠ collectionName session :=
      fun hc => hother (collectionName_inj hc)
    simp [clear_database, updateStore, hne]

/-- A store holding one record for session "A" (the §8 scenario document). -/
def oneRecStore : Store Nat :=
  updateStore emptyStore (collectionName "A".data)
    [{ id := docId 0, document := "The sky is blue. Grass is green.".data,
       embedding := 32,
       metadata := { source := "doc1".data, source_type := "txt".data, chunk_index := 0 } }]

/-- Witness for C8 on a store with one record in session "A", with "B" as the
untouched other session. -/
theorem clear_idempotent_witness :
    clear_database "A".data (clear_database "A".data oneRecStore)
      = clear_database "A".data oneRecStore ∧
    collectionCount "A".data (clear_database "A".data oneRecStore) = 0 ∧
    list_sources "A".data (clear_database "A".data oneRecStore) = [] ∧
    clear_database "A".data oneRecStore (collectionName "B".data)
      = oneRecStore (collectionName "B".data) :=
  ⟨(clear_idempotent "A".data oneRecStore).1,
    (clear_idempotent "A".data oneRecStore).2.1,
    (clear_idempotent "A".data oneRecStore).2.2.1,
    (clear_idempotent "A".data oneRecStore).2.2.2 "B".data (by decide)⟩

/-- C7. Non-empty index but empty retrieval: `answer_question` returns the
fixed fallback text paired with the explicit empty-citations marker — a
normal return, not an error — for every chat oracle (no chat call is made). -/
theorem answer_no_results {E : Type} (env : Env E) (session question : Str)
    (store : Store E) (top_k : Nat)
    (hne : collectionCount session store ≠ 0)
    (qe : E) (tl : List E)
    (hemb : env.embed [question] = .ok (qe :: tl))
    (hq : env.queryFn (store (collectionName session)) qe top_k = []) :
    answer_question env session question store top_k
      = .ok (fallbackAnswer, noCitationsMsg) := by
  simp only [collectionCount] at hne
  simp only [answer_question, embed_texts]
  rw [if_neg hne]
  simp [hemb, hq]

/-- Environment whose nearest-neighbour oracle finds nothing. -/
def noHitEnv : Env Nat :=
  { sampleEnv with queryFn := fun _ _ _ => [] }

/-- Witness for C7: one stored record but a retrieval that returns nothing. -/
theorem answer_no_results_witness :
    (collectionCount "A".data oneRecStore ≠ 0 ∧
      noHitEnv.embed ["What color is the sky?".data] = .ok (22 :: []) ∧
      noHitEnv.queryFn (oneRecStore (collectionName "A".data)) 22 4 = []) ∧
    answer_question noHitEnv "A".data "What color is the sky?".data oneRecStore 4
      = .ok (fallbackAnswer, noCitationsMsg) :=
  ⟨⟨by decide, rfl, rfl⟩,
    answer_no_results noHitEnv "A".data "What color is the sky?".data oneRecStore 4
      (by decide) 22 [] rfl rfl⟩

lemma zip_map_fst_snd {α β : Type} (l : List (α × β)) :
    (l.map Prod.fst).zip (l.map Prod.snd) = l := by
  induction l with
  | nil => rfl
  | cons a l ih => simp [ih]

/-- C3. Citation construction and return: on a non-empty retrieval the answer
pairs the (possibly defaulted) model text with the rendering of the citation
labels, which are, in rank order and 1-indexed, exactly
`"[i] <source> (<source_type>)"`; the context passed to the chat service is
the blank-line join of the label-plus-chunk blocks; and in the §8 single-chunk
scenario the label list is exactly `["[1] doc1 (txt)"]`. -/
theorem answer_citations {E : Type} (env : Env E) (session question : Str)
    (store : Store E) (top_k : Nat)
    (hne : collectionCount session store ≠ 0)
    (qe : E) (tl : List E)
    (hemb : env.embed [question] = .ok (qe :: tl))
    (hits : List (Str × Metadata))
    (hq : env.queryFn (store (collectionName session)) qe top_k = hits)
    (hhits : hits ≠ [])
    (content : Str)
    (hchat : env.chat systemMsg
        (promptText question (List.intercalate "\n\n".data (contextParts hits)))
      = .ok content) :
    answer_question env session question store top_k
      = .ok ((if content.isEmpty then noAnswerMsg else content),
          citationBlock (citationLabels hits)) ∧
    (citationLabels hits).length = hits.length ∧
    (∀ i, ∀ hi : i < hits.length,
      (citationLabels hits)[i]?
        = some ("[".data ++ (Nat.repr (i + 1)).data ++ "] ".data
            ++ (hits.get ⟨i, hi⟩).2.source ++ " (".data
            ++ (hits.get ⟨i, hi⟩).2.source_type ++ ")".data)) ∧
    citationLabels [("The sky is blue. Grass is green.".data,
        { source := "doc1".data, source_type := "txt".data, chunk_index := 0 })]
      = ["[1] doc1 (txt)".data] := by
  refine ⟨?_, ?_, ?_, by decide⟩
  · simp only [collectionCount] at hne
    simp only [answer_question, embed_texts]
    rw [if_neg hne]
    simp only [List.isEmpty_cons, Bool.false_eq_true, if_false, hemb, hq]
    rw [zip_map_fst_snd]
    have hdocs : ¬ (hits.map Prod.fst).isEmpty = true := by
      simp [List.isEmpty_iff, hhits]
    rw [if_neg hdocs, hchat]
  · simp [citationLabels]
  · intro i hi
    simp [citationLabels, List.getElem?_map, List.getElem?_enum,
      List.getElem?_eq_getElem hi, citationLabel]

/-- Witness for C3: the §8 scenario — one stored chunk of source "doc1",
type "txt", retrieved as the single hit. -/
theorem answer_citations_witness :
    (collectionCount "A".data oneRecStore ≠ 0 ∧
      sampleEnv.embed ["What color is the sky?".data] = .ok (22 :: []) ∧
      sampleEnv.queryFn (oneRecStore (collectionName "A".data)) 22 4
        = [("The sky is blue. Grass is green.".data,
            { source := "doc1".data, source_type := "txt".data, chunk_index := 0 })] ∧
      sampleEnv.chat systemMsg
          (promptText "What color is the sky?".data
            (List.intercalate "\n\n".data
              (contextParts [("The sky is blue. Grass is green.".data,
                { source := "doc1".data, source_type := "txt".data, chunk_index := 0 })])))
        = .ok "The sky is blue [1].".data) ∧
    (answer_question sampleEnv "A".data "What color is the sky?".data oneRecStore 4
        = .ok ((if "The sky is blue [1].".data.isEmpty then noAnswerMsg
                else "The sky is blue [1].".data),
            citationBlock (citationLabels
              [("The sky is blue. Grass is green.".data,
                { source := "doc1".data, source_type := "txt".data, chunk_index := 0 })])) ∧
      citationLabels [("The sky is blue. Grass is green.".data,
          { source := "doc1".data, source_type := "txt".data, chunk_index := 0 })]
        = ["[1] doc1 (txt)".data]) := by
  have h := answer_citations sampleEnv "A".data "What color is the sky?".data oneRecStore 4
    (by decide) 22 [] rfl
    [("The sky is blue. Grass is green.".data,
      { source := "doc1".data, source_type := "txt".data, chunk_index := 0 })]
    rfl (by decide) "The sky is blue [1].".data rfl
  exact ⟨⟨by decide, rfl, rfl, rfl⟩, h.1, h.2.2.2⟩

lemma strLe_total : ∀ a b : Str, (strLe a b || strLe b a) = true := by
  intro a
  induction a with
  | nil => intro b; simp [strLe]
  | cons x xs ih =>
    intro b
    cases b with
    | nil => simp [strLe]
    | cons y ys =>
      simp only [strLe]
      by_cases hxy : x.toNat < y.toNat
      · simp [hxy]
      · by_cases hyx : y.toNat < x.toNat
        · simp [hxy, hyx]
        · simpa [hxy, hyx] using ih ys

lemma strLe_trans : ∀ a b c : Str,
    strLe a b = true → strLe b c = true → strLe a c = true := by
  intro a
  induction a with
  | nil => intro b c h1 h2; simp [strLe]
  | cons x xs ih =>
    intro b c h1 h2
    cases b with
    | nil => simp [strLe] at h1
    | cons y ys =>
      cases c with
      | nil => simp [strLe] at h2
      | cons z zs =>
        simp only [strLe] at h1 h2 ⊢
        split_ifs at h1 h2 ⊢ <;> try omega
        all_goals try rfl
        exact ih ys zs h1 h2

/-- C10. Source listing is sorted and deduplicated: `list_sources` is
pairwise nondecreasing in the code-point order, free of duplicates, and
contains a label exactly when some stored record of the session carries it —
regardless of how many chunks or repeated ingestions produced that label. -/
theorem list_sources_sorted_dedup {E : Type} (session : Str) (store : Store E) :
    (list_sources session store).Pairwise (fun a b => strLe a b = true) ∧
    (list_sources session store).Nodup ∧
    (∀ l : Str, l ∈ list_sources session store ↔
      ∃ r ∈ store (collectionName session), labelOf r.metadata = l) := by
  by_cases hz : (store (collectionName session)).length = 0
  · have hnil : store (collectionName session) = [] := List.length_eq_zero.mp hz
    refine ⟨?_, ?_, ?_⟩
    · simp [list_sources, hz]
    · simp [list_sources, hz]
    · intro l
      simp [list_sources, hz, hnil]
  · refine ⟨?_, ?_, ?_⟩
    · simp only [list_sources, if_neg hz]
      exact List.sorted_mergeSort strLe_trans strLe_total _
    · simp only [list_sources, if_neg hz]
      exact (List.mergeSort_perm _ _).nodup_iff.mpr (List.nodup_dedup _)
    · intro l
      simp only [list_sources, if_neg hz]
      rw [(List.mergeSort_perm _ _).mem_iff, List.mem_dedup, List.mem_map]

/-- A status string carrying the source's success (✅) or failure (❌)
marker as its prefix. -/
def hasMarker (s : Str) : Prop :=
  List.isPrefixOf "✅".data s = true ∨ List.isPrefixOf "❌".data s = true

lemma webIngestOutcome_marked {E : Type} (session : Str) (r : Except Str Nat × Store E) :
    hasMarker (webIngestOutcome session r).1.1 := by
  rcases r with ⟨r, s⟩
  cases r
  · exact Or.inr rfl
  · exact Or.inl rfl

lemma youtubeIngestOutcome_marked {E : Type} (session : Str)
    (r : Except Str Nat × Store E) :
    hasMarker (youtubeIngestOutcome session r).1.1 := by
  rcases r with ⟨r, s⟩
  cases r
  · exact Or.inr rfl
  · exact Or.inl rfl

lemma fileIngestOutcome_marked {E : Type} (session name : Str)
    (r : Except Str Nat × Store E) :
    hasMarker (fileIngestOutcome session name r).1.1 := by
  rcases r with ⟨r, s⟩
  cases r
  · exact Or.inr rfl
  · exact Or.inl rfl

lemma fileTextOutcome_marked {E : Type} (env : Env E) (session name sfx : Str)
    (store : Store E) (t : Except Str Str) :
    hasMarker (fileTextOutcome env session name sfx store t).1.1 := by
  cases t
  · exact Or.inr rfl
  · exact fileIngestOutcome_marked session name _

/-- C9 counterexample: `ingest_website` on a blank URL returns the plain
prompt "Please provide a website URL.", which carries neither the success
nor the failure marker — so not every entry point prefixes every returned
status with a marker. -/
theorem entry_marker_counterexample :
    (ingest_website sampleEnv "A".data "".data emptyStore).1.1
      = "Please provide a website URL.".data ∧
    List.isPrefixOf "✅".data
      (ingest_website sampleEnv "A".data "".data emptyStore).1.1 = false ∧
    List.isPrefixOf "❌".data
      (ingest_website sampleEnv "A".data "".data emptyStore).1.1 = false :=
  ⟨rfl, by decide, by decide⟩

/-- C9 (amended). Every public entry point is total for every oracle outcome
— exceptions are converted at its boundary — and returns marker-prefixed
status text for non-blank ingestion inputs, for an uploaded file and for
clear; `ask_question` prefixes failures with the ❌ marker and passes a
successful answer through unchanged (without a marker), while blank inputs
yield unmarked prompts. -/
theorem entry_points_marked {E : Type} (env : Env E) (session : Str) (store : Store E) :
    (∀ url, pyStrip url ≠ [] → hasMarker (ingest_website env session url store).1.1) ∧
    (∀ url, pyStrip url ≠ [] → hasMarker (ingest_youtube env session url store).1.1) ∧
    (∀ p, hasMarker (ingest_uploaded_file env session (some p) store).1.1) ∧
    hasMarker (clear_db_action session store).1 ∧
    (∀ question e, pyStrip question ≠ [] →
      answer_question env session question store 4 = .error e →
      (ask_question env session question store).1
        = "❌ Question answering failed: ".data ++ e) ∧
    (∀ question a c, pyStrip question ≠ [] →
      answer_question env session question store 4 = .ok (a, c) →
      ask_question env session question store = (a, c)) := by
  refine ⟨?_, ?_, ?_, Or.inl rfl, ?_, ?_⟩
  · intro url hurl
    dsimp only [ingest_website]
    rw [if_neg hurl]
    cases henv : env.loadWeb url with
    | error e => exact Or.inr rfl
    | ok t => exact webIngestOutcome_marked session _
  · intro url hurl
    dsimp only [ingest_youtube]
    rw [if_neg hurl]
    cases henv : env.loadYoutube url with
    | error e => exact Or.inr rfl
    | ok t => exact youtubeIngestOutcome_marked session _
  · intro p
    dsimp only [ingest_uploaded_file]
    cases hrd : env.readFile p with
    | error e => exact Or.inr rfl
    | ok file_bytes => exact fileTextOutcome_marked env session _ _ store _
  · intro question e hq hans
    dsimp only [ask_question]
    rw [if_neg hq, hans]
  · intro question a c hq hans
    dsimp only [ask_question]
    rw [if_neg hq, hans]

/-- Witness for the amended C9 at concrete inputs: non-blank URL, an uploaded
file, clear, and a failing question on an empty session. -/
theorem entry_points_marked_witness :
    (pyStrip "http://x".data ≠ [] ∧ pyStrip "What color is the sky?".data ≠ [] ∧
      answer_question sampleEnv "B".data "What color is the sky?".data emptyStore 4
        = .error emptyKBMsg) ∧
    (hasMarker (ingest_website sampleEnv "A".data "http://x".data emptyStore).1.1 ∧
      hasMarker (ingest_youtube sampleEnv "A".data "http://x".data emptyStore).1.1 ∧
      hasMarker (ingest_uploaded_file sampleEnv "A".data (some "notes.txt".data)
        emptyStore).1.1 ∧
      hasMarker (clear_db_action "A".data (emptyStore : Store Nat)).1 ∧
      (ask_question sampleEnv "B".data "What color is the sky?".data emptyStore).1
        = "❌ Question answering failed: ".data ++ emptyKBMsg) :=
  have hA := entry_points_marked sampleEnv "A".data emptyStore
  have hB := entry_points_marked sampleEnv "B".data emptyStore
  ⟨⟨by decide, by decide, rfl⟩,
    hA.1 "http://x".data (by decide),
    hA.2.1 "http://x".data (by decide),
    hA.2.2.1 "notes.txt".data,
    hA.2.2.2.1,
    hB.2.2.2.2.1 "What color is the sky?".data emptyKBMsg (by decide) rfl⟩
